import Mathlib

/-!
Shallow embedding of four langflow adapter components:
tavily.py (TavilySearchComponent), tavily_search.py (TavilySearchToolComponent),
parse_dataframe.py (ParseDataFrameComponent) and
html_link_extractor.py (HtmlLinkExtractorComponent),
together with theorems settling the specification claims about them.
-/

namespace Langflow

/-- A Python/JSON value as it appears in parsed Tavily responses and in
DataFrame cells.  `none` is Python None (JSON null). -/
inductive JVal where
  | none
  | str (s : String)
  | int (n : Int)
  | bool (b : Bool)
  | list (xs : List JVal)
  | dict (fields : List (String × JVal))

/-- First-match lookup in an association list (Python dict lookup; `to_dict`
and parsed JSON objects have unique keys, so first match is the dict value). -/
def findKey (fields : List (String × JVal)) (k : String) : Option JVal :=
  match fields with
  | [] => Option.none
  | (k2, v) :: rest => if k2 = k then some v else findKey rest k

/-- Python `d.get(k)`: the value stored under `k`, or None when the key is
missing (or the receiver is not a dict; the code only calls it on dicts). -/
def JVal.get (v : JVal) (k : String) : JVal :=
  match v with
  | .dict fs => (findKey fs k).getD .none
  | _ => .none

/-- Python `d.get(k, dflt)`: the stored value when the key is present (even
when that value is None), otherwise the default. -/
def JVal.getD (v : JVal) (k : String) (dflt : JVal) : JVal :=
  match v with
  | .dict fs => (findKey fs k).getD dflt
  | _ => dflt

/-- Python truthiness of a value, as used in `if flag and d.get("answer"):`. -/
def JVal.truthy : JVal → Bool
  | .none => false
  | .str s => !(s = "")
  | .int n => !(n = 0)
  | .bool b => b
  | .list xs => !xs.isEmpty
  | .dict fs => !fs.isEmpty

/-- Iterating a JSON array (`for result in search_results.get("results", [])`).
The claims only concern responses whose results field is an array. -/
def JVal.asList : JVal → List JVal
  | .list xs => xs
  | _ => []

/-- Python `str()` of a value, as used when a record value is rendered into
text output. -/
def JVal.render : JVal → String
  | .none => "None"
  | .str s => s
  | .int n => toString n
  | .bool b => if b then "True" else "False"
  | .list _ => "[...]"
  | .dict _ => "{...}"

/-- Modelled from the spec: langflow.schema.Data, the host framework's
generic key-value record container ("Record" in the glossary), which is not
under src/.  The constructor calls in the source supply an optional text
payload and a dict of data fields. -/
structure Data where
  text : Option JVal := Option.none
  data : List (String × JVal) := []

/-- Modelled from the spec: langflow.schema.message.Message, the host
framework's single-text-message container, which is not under src/. -/
structure Message where
  text : String
deriving Repr, DecidableEq

/-- One outbound HTTP POST as issued by `client.post(url, json=payload,
headers=headers)`. -/
structure HttpRequest where
  url : String
  json : List (String × JVal)
  headers : List (String × String)

/-- The outcome of the single `client.post` / `raise_for_status` /
`response.json()` sequence: a success with a parsed JSON body, an HTTP
status error (from raise_for_status), a request/network error (httpx
RequestError, rendered by str), or a JSON decoding failure (ValueError,
rendered by str). -/
inductive HttpOutcome where
  | success (body : JVal)
  | statusError (code : Nat) (text : String)
  | requestError (msg : String)
  | jsonError (msg : String)

/-- The input state of TavilySearchComponent (tavily.py): its declared typed
fields as read through self. -/
structure TavilySearchComponent where
  api_key : String
  query : String
  search_depth : String
  topic : String
  time_range : Option String
  max_results : Int
  include_images : Bool
  include_answer : Bool
deriving Repr, DecidableEq

/-- The JSON payload built by TavilySearchComponent.fetch_content. -/
def fetchPayload (c : TavilySearchComponent) : List (String × JVal) :=
  [ ("api_key", .str c.api_key)
  , ("query", .str c.query)
  , ("search_depth", .str c.search_depth)
  , ("topic", .str c.topic)
  , ("max_results", .int c.max_results)
  , ("include_images", .bool c.include_images)
  , ("include_answer", .bool c.include_answer)
  , ("time_range", match c.time_range with
      | Option.none => JVal.none
      | some s => .str s) ]

/-- The single request issued by TavilySearchComponent.fetch_content. -/
def fetchRequest (c : TavilySearchComponent) : HttpRequest :=
  { url := "https://api.tavily.com/search"
  , json := fetchPayload c
  , headers := [("content-type", "application/json"), ("accept", "application/json")] }

/-- TavilySearchComponent.fetch_content.  The first component of the result
is the trace of HTTP POSTs issued; the second is the returned list of Data
records.  The success branch mirrors the imperative Python: start from an
empty list, conditionally append the answer record, append one record per
results entry in a loop, conditionally append the images record.  Each
handled exception returns a single error record. -/
def fetch_content (c : TavilySearchComponent) (resp : HttpOutcome) :
    List HttpRequest × List Data :=
  ( [fetchRequest c]
  , match resp with
    | .statusError code text =>
        let error_message := "Erro HTTP ocorrido: " ++ toString code ++ " - " ++ text
        [{ text := some (.str error_message), data := [("error", .str error_message)] }]
    | .requestError msg =>
        let error_message := "Erro de requisição ocorrido: " ++ msg
        [{ text := some (.str error_message), data := [("error", .str error_message)] }]
    | .jsonError msg =>
        let error_message := "Formato de resposta inválido: " ++ msg
        [{ text := some (.str error_message), data := [("error", .str error_message)] }]
    | .success search_results =>
        let dr0 : List Data := []
        let dr1 :=
          if c.include_answer && (search_results.get "answer").truthy then
            dr0 ++ [{ text := some (search_results.get "answer"), data := [] }]
          else dr0
        let dr2 :=
          (search_results.getD "results" (.list [])).asList.foldl
            (fun acc result =>
              let content := result.getD "content" (.str "")
              acc ++ [{ text := some content
                      , data := [ ("title", result.get "title")
                                , ("url", result.get "url")
                                , ("content", content)
                                , ("score", result.get "score") ] }])
            dr1
        let dr3 :=
          if c.include_images && (search_results.get "images").truthy then
            dr2 ++ [{ text := some (.str "Imagens encontradas")
                    , data := [("images", search_results.get "images")] }]
          else dr2
        dr3 )

/-- Substitutes repl for every occurrence of the placeholder {text} in a
character list (the template substitution data_to_text performs for the
template fetch_content_text passes). -/
def substTextPlaceholder (repl : String) : List Char → List Char
  | '{' :: 't' :: 'e' :: 'x' :: 't' :: '}' :: cs => repl.data ++ substTextPlaceholder repl cs
  | c :: cs => c :: substTextPlaceholder repl cs
  | [] => []

/-- The str-rendered text payload of a record, empty when absent. -/
def Data.textStr (d : Data) : String :=
  match d.text with
  | Option.none => ""
  | some v => v.render

/-- Modelled from the spec: langflow.helpers.data.data_to_text (not under
src/), as called by fetch_content_text with the template "{text}".  It
renders each record by substituting the record's text (str-rendered, empty
when absent) for the {text} placeholder of the template, and joins the
rendered lines with newlines into the single text message the spec
describes. -/
def data_to_text (template : String) (ds : List Data) : String :=
  String.intercalate "\n"
    (ds.map fun d => String.mk (substTextPlaceholder d.textStr template.data))

/-- TavilySearchComponent.fetch_content_text: calls fetch_content and wraps
the "{text}" rendering of its records in a Message.  The request trace of
the inner fetch_content call is passed through. -/
def fetch_content_text (c : TavilySearchComponent) (resp : HttpOutcome) :
    List HttpRequest × Message :=
  let fetched := fetch_content c resp
  let result_string := data_to_text "{text}" fetched.2
  (fetched.1, { text := result_string })

/-- The TavilySearchDepth enum of tavily_search.py. -/
inductive TavilySearchDepth where
  | basic
  | advanced
deriving Repr, DecidableEq

/-- The value attribute of a TavilySearchDepth member. -/
def TavilySearchDepth.value : TavilySearchDepth → String
  | .basic => "basic"
  | .advanced => "advanced"

/-- The TavilySearchTopic enum of tavily_search.py. -/
inductive TavilySearchTopic where
  | general
  | news
deriving Repr, DecidableEq

/-- The value attribute of a TavilySearchTopic member. -/
def TavilySearchTopic.value : TavilySearchTopic → String
  | .general => "general"
  | .news => "news"

/-- The Python enum constructor TavilySearchDepth(s): the member whose value
is s, if any. -/
def depthOfString (s : String) : Option TavilySearchDepth :=
  if s = "basic" then some .basic
  else if s = "advanced" then some .advanced
  else Option.none

/-- The Python enum constructor TavilySearchTopic(s): the member whose value
is s, if any. -/
def topicOfString (s : String) : Option TavilySearchTopic :=
  if s = "general" then some .general
  else if s = "news" then some .news
  else Option.none

/-- A Python argument that the code checks with isinstance against an enum
class: either an actual member of the enum, or any other Python value
carried by its str() rendering. -/
inductive PyEnumArg (α : Type) where
  | enum (v : α)
  | other (s : String)

/-- The exceptions raised (or propagated) by the tool component: the
TypeError of the isinstance validation in _tavily_search, and the
ToolException its except branches raise. -/
inductive PyError where
  | typeError (msg : String)
  | toolException (msg : String)

/-- The JSON payload built by TavilySearchToolComponent._tavily_search
(note: unlike fetch_content it has no time_range field and sends the enum
members' value strings). -/
def toolPayload (api_key query : String) (search_depth : TavilySearchDepth)
    (topic : TavilySearchTopic) (max_results : Int)
    (include_images include_answer : Bool) : List (String × JVal) :=
  [ ("api_key", .str api_key)
  , ("query", .str query)
  , ("search_depth", .str search_depth.value)
  , ("topic", .str topic.value)
  , ("max_results", .int max_results)
  , ("include_images", .bool include_images)
  , ("include_answer", .bool include_answer) ]

/-- The single request issued by _tavily_search once enum validation
passes. -/
def toolRequest (api_key query : String) (search_depth : TavilySearchDepth)
    (topic : TavilySearchTopic) (max_results : Int)
    (include_images include_answer : Bool) : HttpRequest :=
  { url := "https://api.tavily.com/search"
  , json := toolPayload api_key query search_depth topic max_results
      include_images include_answer
  , headers := [("content-type", "application/json"), ("accept", "application/json")] }

/-- TavilySearchToolComponent._tavily_search.  The isinstance checks raise
TypeError before any request is made; afterwards one POST is issued and the
response reshaped: one record per results entry (a list comprehension),
then insert(0, answer record) when requested and the response's answer is
truthy, then append the images record when requested and truthy.  The
HTTPStatusError branch and the catch-all Exception branch raise
ToolException. -/
def _tavily_search (api_key query : String)
    (search_depth : PyEnumArg TavilySearchDepth)
    (topic : PyEnumArg TavilySearchTopic)
    (max_results : Int) (include_images include_answer : Bool)
    (resp : HttpOutcome) : List HttpRequest × Except PyError (List Data) :=
  match search_depth with
  | .other s => ([], .error (.typeError ("Profundidade de busca inválida: " ++ s)))
  | .enum sd =>
    match topic with
    | .other s => ([], .error (.typeError ("Tópico de busca inválido: " ++ s)))
    | .enum tp =>
      ( [toolRequest api_key query sd tp max_results include_images include_answer]
      , match resp with
        | .statusError code text =>
            .error (.toolException ("Erro HTTP: " ++ toString code ++ " - " ++ text))
        | .requestError msg =>
            .error (.toolException ("Erro inesperado: " ++ msg))
        | .jsonError msg =>
            .error (.toolException ("Erro inesperado: " ++ msg))
        | .success resultados =>
            let data_results :=
              (resultados.getD "results" (.list [])).asList.map
                (fun item =>
                  { text := Option.none
                  , data := [ ("title", item.get "title")
                            , ("url", item.get "url")
                            , ("content", item.get "content")
                            , ("score", item.get "score") ] } : JVal → Data)
            let data_results :=
              if include_answer && (resultados.get "answer").truthy then
                { text := Option.none
                , data := [("answer", resultados.get "answer")] } :: data_results
              else data_results
            let data_results :=
              if include_images && (resultados.get "images").truthy then
                data_results ++
                  [{ text := Option.none
                   , data := [("images", resultados.get "images")] }]
              else data_results
            .ok data_results )

/-- The input state of TavilySearchToolComponent (tavily_search.py): its
declared fields as read through self.  The dropdown fields may hold an
actual enum member or any other value (a string from the UI). -/
structure TavilySearchToolComponent where
  api_key : String
  query : String
  search_depth : PyEnumArg TavilySearchDepth
  topic : PyEnumArg TavilySearchTopic
  max_results : Int
  include_images : Bool
  include_answer : Bool

/-- Modelled from the spec: str() of the ValueError raised by the Python
enum library's constructor on an invalid value (library behavior, not under
src/); it names the offending value and the enum class. -/
def enumValueErrorStr (value enumName : String) : String :=
  value ++ " is not a valid " ++ enumName

/-- ASCII lowering of one character. -/
def asciiLowerChar (c : Char) : Char :=
  if 'A' ≤ c ∧ c ≤ 'Z' then Char.ofNat (c.toNat + 32) else c

/-- Python str.lower() as applied to the dropdown strings (restricted to
ASCII case folding, which decides membership in the enums' ASCII value sets
exactly as Python's lower does). -/
def asciiLower (s : String) : String := String.mk (s.data.map asciiLowerChar)

/-- The enum coercion at the top of run_model for search_depth: keep an
actual member, otherwise TavilySearchDepth(str(x).lower()); an invalid
string yields the caught ValueError message. -/
def getDepthEnum : PyEnumArg TavilySearchDepth → Except String TavilySearchDepth
  | .enum v => .ok v
  | .other s =>
    match depthOfString (asciiLower s) with
    | some v => .ok v
    | Option.none =>
        .error ("Valor de profundidade de busca inválido: " ++
          enumValueErrorStr (asciiLower s) "TavilySearchDepth")

/-- The enum coercion at the top of run_model for topic. -/
def getTopicEnum : PyEnumArg TavilySearchTopic → Except String TavilySearchTopic
  | .enum v => .ok v
  | .other s =>
    match topicOfString (asciiLower s) with
    | some v => .ok v
    | Option.none =>
        .error ("Valor de tópico inválido: " ++
          enumValueErrorStr (asciiLower s) "TavilySearchTopic")

/-- TavilySearchToolComponent.run_model: converts the string inputs to enum
members, catching each ValueError and returning (not raising) a one-element
list whose record's data carries the error message; with valid enums it
delegates to _tavily_search. -/
def run_model (c : TavilySearchToolComponent) (resp : HttpOutcome) :
    List HttpRequest × Except PyError (List Data) :=
  match getDepthEnum c.search_depth with
  | .error error_message =>
      ([], .ok [{ text := Option.none, data := [("error", .str error_message)] }])
  | .ok search_depth_enum =>
    match getTopicEnum c.topic with
    | .error error_message =>
        ([], .ok [{ text := Option.none, data := [("error", .str error_message)] }])
    | .ok topic_enum =>
        _tavily_search c.api_key c.query (.enum search_depth_enum) (.enum topic_enum)
          c.max_results c.include_images c.include_answer resp

/-- A DataFrame row as row.to_dict() presents it: column name to cell
value. -/
def Row := List (String × JVal)

/-- A pandas DataFrame, reduced to what iterrows exposes: its rows in
order, each as a column-name-to-value dictionary. -/
structure DataFrame where
  rows : List Row

/-- DataFrame.iterrows, keeping only the row (the index is discarded by the
source's for loop). -/
def DataFrame.iterrows (df : DataFrame) : List Row := df.rows

/-- Scanner state for Python str.format: outside a replacement field, or
inside one accumulating the field name (reversed). -/
inductive FmtState where
  | normal
  | inKey (acc : List Char)

/-- Core of Python str.format(**row): literal text is copied, a doubled
brace is an escaped brace, a replacement field is looked up in the keyword
dict (a missing key raises KeyError, carried as the error), and an
unmatched brace raises ValueError (carried as the error). -/
def pyFormatGo (row : Row) : FmtState → List Char → Except String (List Char)
  | .normal, [] => .ok []
  | .normal, '{' :: '{' :: cs => (pyFormatGo row .normal cs).map (fun r => '{' :: r)
  | .normal, '}' :: '}' :: cs => (pyFormatGo row .normal cs).map (fun r => '}' :: r)
  | .normal, '{' :: cs => pyFormatGo row (.inKey []) cs
  | .normal, '}' :: _ => .error "Single right brace encountered in format string"
  | .normal, c :: cs => (pyFormatGo row .normal cs).map (fun r => c :: r)
  | .inKey _, [] => .error "Single left brace encountered in format string"
  | .inKey acc, '}' :: cs =>
      match findKey row (String.mk acc.reverse) with
      | some v => (pyFormatGo row .normal cs).map (fun r => (JVal.render v).data ++ r)
      | Option.none => .error ("KeyError: " ++ String.mk acc.reverse)
  | .inKey acc, c :: cs => pyFormatGo row (.inKey (c :: acc)) cs

/-- Python template.format(**row_dict) as used by parse_data. -/
def pyFormat (template : String) (row : Row) : Except String String :=
  (pyFormatGo row .normal template.data).map String.mk

/-- The input state of ParseDataFrameComponent (parse_dataframe.py).  The
template and sep fields may be unset (None) or empty. -/
structure ParseDataFrameComponent where
  df : DataFrame
  template : Option String
  sep : Option String

/-- Python x or dflt for an optional string: None and the empty string are
falsy and give the default. -/
def strOr (v : Option String) (dflt : String) : String :=
  match v with
  | Option.none => dflt
  | some s => if s = "" then dflt else s

/-- ParseDataFrameComponent._clean_args: substitutes the defaults "{text}"
and a newline for falsy template and sep inputs. -/
def _clean_args (c : ParseDataFrameComponent) : DataFrame × String × String :=
  (c.df, strOr c.template "{text}", strOr c.sep "\n")

/-- The row loop of parse_data: formats each row with the template in
order, appending to lines; a formatting exception propagates. -/
def buildLines (template : String) : List Row → Except String (List String)
  | [] => .ok []
  | r :: rs => do
      let text_line ← pyFormat template r
      let rest ← buildLines template rs
      .ok (text_line :: rest)

/-- ParseDataFrameComponent.parse_data: formats every row of the DataFrame
with the (cleaned) template, joins the lines with the (cleaned) separator,
and wraps the result in a Message; a formatting exception propagates (as a
KeyError/ValueError message). -/
def parse_data (c : ParseDataFrameComponent) : Except String Message := do
  let cleaned := _clean_args c
  let lines ← buildLines cleaned.2.1 cleaned.1.iterrows
  let result_string := String.intercalate cleaned.2.2 lines
  .ok { text := result_string }

/-- Modelled from the spec: langchain_community's HtmlLinkExtractor (a
third-party document-processing library object, not under src/), reduced to
the configuration the component passes it. -/
structure HtmlLinkExtractor where
  kind : String
  drop_fragments : Bool

/-- Modelled from the spec: the document-extractor adapter returned by
HtmlLinkExtractor.as_document_extractor(). -/
structure HtmlLinkDocExtractor where
  base : HtmlLinkExtractor

/-- Modelled from the spec: langchain_community's LinkExtractorTransformer,
holding the list of document extractors it was constructed with. -/
structure LinkExtractorTransformer where
  extractors : List HtmlLinkDocExtractor

/-- The input state of HtmlLinkExtractorComponent
(html_link_extractor.py). -/
structure HtmlLinkExtractorComponent where
  kind : String
  drop_fragments : Bool
  data_input : JVal

/-- HtmlLinkExtractorComponent.build_document_transformer: a
LinkExtractorTransformer over the single HtmlLinkExtractor configured with
the component's kind and drop_fragments inputs. -/
def build_document_transformer (c : HtmlLinkExtractorComponent) :
    LinkExtractorTransformer :=
  { extractors :=
      [{ base := { kind := c.kind, drop_fragments := c.drop_fragments } }] }

/-- The record fetch_content builds for one entry of the response's results
array. -/
def fetchResultRecord (result : JVal) : Data :=
  let content := result.getD "content" (.str "")
  { text := some content
  , data := [ ("title", result.get "title")
            , ("url", result.get "url")
            , ("content", content)
            , ("score", result.get "score") ] }

/-- The answer record fetch_content prepends when include_answer is set and
the response's answer is truthy. -/
def fetchAnswerRecord (body : JVal) : Data :=
  { text := some (body.get "answer"), data := [] }

/-- The images record fetch_content appends when include_images is set and
the response's images are truthy. -/
def fetchImagesRecord (body : JVal) : Data :=
  { text := some (.str "Imagens encontradas")
  , data := [("images", body.get "images")] }

/-- The record _tavily_search builds for one entry of the response's
results array. -/
def toolResultRecord (item : JVal) : Data :=
  { text := Option.none
  , data := [ ("title", item.get "title")
            , ("url", item.get "url")
            , ("content", item.get "content")
            , ("score", item.get "score") ] }

/-- The answer record _tavily_search inserts at position 0 when
include_answer is set and the response's answer is truthy. -/
def toolAnswerRecord (body : JVal) : Data :=
  { text := Option.none, data := [("answer", body.get "answer")] }

/-- The images record _tavily_search appends when include_images is set and
the response's images are truthy. -/
def toolImagesRecord (body : JVal) : Data :=
  { text := Option.none, data := [("images", body.get "images")] }

/-- The results entries of the concrete successful response used by the
witnesses. -/
def exResults : List JVal :=
  [ .dict [ ("title", .str "t1"), ("url", .str "u1")
          , ("content", .str "c1"), ("score", .int 9) ]
  , .dict [ ("title", .str "t2"), ("url", .str "u2")
          , ("content", .str "c2"), ("score", .int 8) ] ]

/-- A successful Tavily response used to instantiate the hypotheses of the
claims quantified over responses. -/
def exBody : JVal := .dict
  [ ("answer", .str "resp")
  , ("results", .list exResults)
  , ("images", .list [.str "img1"]) ]

/-- A concrete TavilySearchComponent state used by the witnesses. -/
def exComponent : TavilySearchComponent :=
  { api_key := "k", query := "q", search_depth := "avançada", topic := "geral"
  , time_range := Option.none, max_results := 5
  , include_images := true, include_answer := true }

/-- A concrete ParseDataFrameComponent state (with unset template and
separator) used by the witnesses. -/
def exParse : ParseDataFrameComponent :=
  { df := { rows := [[("text", .str "a")], [("text", .str "b")]] }
  , template := Option.none, sep := Option.none }

/-- A concrete TavilySearchToolComponent state used by the witnesses. -/
def exTool : TavilySearchToolComponent :=
  { api_key := "k", query := "q", search_depth := .enum .advanced
  , topic := .enum .general, max_results := 5
  , include_images := false, include_answer := false }

/-- The results loop of fetch_content is the map of fetchResultRecord over
the entries, appended to the accumulator it starts from. -/
theorem fetch_foldl_eq (rs : List JVal) (init : List Data) :
    rs.foldl (fun acc result =>
        let content := result.getD "content" (.str "")
        acc ++ [{ text := some content
                , data := [ ("title", result.get "title")
                          , ("url", result.get "url")
                          , ("content", content)
                          , ("score", result.get "score") ] }]) init
      = init ++ rs.map fetchResultRecord := by
  induction rs generalizing init with
  | nil => simp
  | cons r rs ih => simp [List.foldl_cons, ih, fetchResultRecord]

/-- The success branch of fetch_content, in declarative form: the optional
answer record, then one record per results entry in order, then the
optional images record. -/
theorem fetch_content_success_eq (c : TavilySearchComponent) (body : JVal) :
    (fetch_content c (.success body)).2 =
      (if c.include_answer && (body.get "answer").truthy
        then [fetchAnswerRecord body] else [])
      ++ (body.getD "results" (.list [])).asList.map fetchResultRecord
      ++ (if c.include_images && (body.get "images").truthy
        then [fetchImagesRecord body] else []) := by
  cases hA : c.include_answer && (body.get "answer").truthy <;>
    cases hI : c.include_images && (body.get "images").truthy <;>
    simp [fetch_content, hA, hI, fetchAnswerRecord, fetchImagesRecord,
      fetch_foldl_eq]

/-- The success branch of _tavily_search (with enum-validated arguments),
in declarative form. -/
theorem tavily_search_success_eq (api_key query : String)
    (sd : TavilySearchDepth) (tp : TavilySearchTopic) (mr : Int)
    (ii ia : Bool) (body : JVal) :
    (_tavily_search api_key query (.enum sd) (.enum tp) mr ii ia
        (.success body)).2 =
      .ok ((if ia && (body.get "answer").truthy
              then [toolAnswerRecord body] else [])
        ++ (body.getD "results" (.list [])).asList.map toolResultRecord
        ++ (if ii && (body.get "images").truthy
              then [toolImagesRecord body] else [])) := by
  simp only [_tavily_search]
  cases hA : ia && (body.get "answer").truthy <;>
    cases hI : ii && (body.get "images").truthy <;>
    simp [hA, hI, toolAnswerRecord, toolImagesRecord, toolResultRecord]

/-- C2: for every invocation of TavilySearchComponent.fetch_content in
which the HTTP POST fails with a status error, a request/network error
occurs, or the response body is not valid JSON, the failure is caught
locally and the method returns (without raising) a one-element list whose
record has text equal to the error message and an error field equal to the
same message. -/
theorem C2_fetch_content_error_record (c : TavilySearchComponent)
    (code : Nat) (body msg jmsg : String) :
    ((fetch_content c (.statusError code body)).2 =
      [{ text := some (.str ("Erro HTTP ocorrido: " ++ toString code ++ " - " ++ body))
       , data := [("error", .str ("Erro HTTP ocorrido: " ++ toString code ++ " - " ++ body))] }])
  ∧ ((fetch_content c (.requestError msg)).2 =
      [{ text := some (.str ("Erro de requisição ocorrido: " ++ msg))
       , data := [("error", .str ("Erro de requisição ocorrido: " ++ msg))] }])
  ∧ ((fetch_content c (.jsonError jmsg)).2 =
      [{ text := some (.str ("Formato de resposta inválido: " ++ jmsg))
       , data := [("error", .str ("Formato de resposta inválido: " ++ jmsg))] }]) :=
  ⟨rfl, rfl, rfl⟩

/-- C3: for every invocation of TavilySearchToolComponent._tavily_search
with valid TavilySearchDepth and TavilySearchTopic arguments in which the
HTTP request fails with a status error or any other exception occurs
during the search, the failure is caught and converted into a raised
ToolException carrying the error message. -/
theorem C3_tavily_search_raises (api_key query : String)
    (sd : TavilySearchDepth) (tp : TavilySearchTopic) (mr : Int)
    (ii ia : Bool) (code : Nat) (body msg jmsg : String) :
    ((_tavily_search api_key query (.enum sd) (.enum tp) mr ii ia
        (.statusError code body)).2 =
      .error (.toolException ("Erro HTTP: " ++ toString code ++ " - " ++ body)))
  ∧ ((_tavily_search api_key query (.enum sd) (.enum tp) mr ii ia
        (.requestError msg)).2 =
      .error (.toolException ("Erro inesperado: " ++ msg)))
  ∧ ((_tavily_search api_key query (.enum sd) (.enum tp) mr ii ia
        (.jsonError jmsg)).2 =
      .error (.toolException ("Erro inesperado: " ++ jmsg))) :=
  ⟨rfl, rfl, rfl⟩

/-- C6: every invocation of fetch_content, and every invocation of
_tavily_search that passes enum validation, issues exactly one outbound
HTTP POST to the Tavily search endpoint with a JSON body containing the
API key, query and configuration fields, and never issues a second
request. -/
theorem C6_single_request (c : TavilySearchComponent)
    (resp resp2 : HttpOutcome) (api_key query : String)
    (sd : TavilySearchDepth) (tp : TavilySearchTopic) (mr : Int)
    (ii ia : Bool) :
    (fetch_content c resp).1 = [fetchRequest c]
  ∧ (fetchRequest c).url = "https://api.tavily.com/search"
  ∧ findKey (fetchRequest c).json "api_key" = some (.str c.api_key)
  ∧ findKey (fetchRequest c).json "query" = some (.str c.query)
  ∧ (_tavily_search api_key query (.enum sd) (.enum tp) mr ii ia resp2).1
      = [toolRequest api_key query sd tp mr ii ia]
  ∧ (toolRequest api_key query sd tp mr ii ia).url = "https://api.tavily.com/search"
  ∧ findKey (toolRequest api_key query sd tp mr ii ia).json "api_key"
      = some (.str api_key)
  ∧ findKey (toolRequest api_key query sd tp mr ii ia).json "query"
      = some (.str query) :=
  ⟨rfl, rfl, rfl, rfl, rfl, rfl, rfl, rfl⟩

/-- C7: for every component state, build_document_transformer returns a
LinkExtractorTransformer wrapping exactly one HtmlLinkExtractor document
extractor, configured with the component's kind input as the link kind and
its drop_fragments input as the fragment-dropping flag. -/
theorem C7_build_document_transformer (c : HtmlLinkExtractorComponent) :
    (build_document_transformer c).extractors.length = 1
  ∧ (build_document_transformer c).extractors =
      [{ base := { kind := c.kind, drop_fragments := c.drop_fragments } }] :=
  ⟨rfl, rfl⟩

/-- C10: for every component state, fetch_content_text returns a Message
whose text is exactly the "{text}" rendering of the list of records
returned by fetch_content on the same state; in particular, when the
search fails, the message text contains the error message rather than the
call raising. -/
theorem C10_fetch_content_text (c : TavilySearchComponent)
    (resp : HttpOutcome) (code : Nat) (body msg jmsg : String) :
    ((fetch_content_text c resp).2 =
      { text := data_to_text "{text}" (fetch_content c resp).2 })
  ∧ ((fetch_content_text c (.statusError code body)).2.text =
      "Erro HTTP ocorrido: " ++ toString code ++ " - " ++ body)
  ∧ ((fetch_content_text c (.requestError msg)).2.text =
      "Erro de requisição ocorrido: " ++ msg)
  ∧ ((fetch_content_text c (.jsonError jmsg)).2.text =
      "Formato de resposta inválido: " ++ jmsg) := by
  refine ⟨rfl, ?_, ?_, ?_⟩ <;>
    (apply String.ext
     simp [fetch_content_text, fetch_content, data_to_text, Data.textStr,
       JVal.render, substTextPlaceholder, String.intercalate,
       String.intercalate.go, String.data_append])

/-- C1: for every successful Tavily API response, both fetch_content and
_tavily_search return a list containing one record per entry of the
response's results array (in order), each record's data holding the
fields title, url, content and score taken from that entry. -/
theorem C1_success_results_shape (c : TavilySearchComponent)
    (api_key query : String) (sd : TavilySearchDepth)
    (tp : TavilySearchTopic) (mr : Int) (ii ia : Bool)
    (body : JVal) (rs : List JVal)
    (h : body.getD "results" (.list []) = .list rs) :
    (∃ pre post : List Data,
        (fetch_content c (.success body)).2 =
          pre ++ rs.map fetchResultRecord ++ post)
  ∧ (∃ pre post : List Data,
        (_tavily_search api_key query (.enum sd) (.enum tp) mr ii ia
            (.success body)).2 =
          .ok (pre ++ rs.map toolResultRecord ++ post))
  ∧ (∀ r : JVal, fetchResultRecord r =
      { text := some (r.getD "content" (.str ""))
      , data := [ ("title", r.get "title"), ("url", r.get "url")
                , ("content", r.getD "content" (.str ""))
                , ("score", r.get "score") ] })
  ∧ (∀ r : JVal, toolResultRecord r =
      { text := Option.none
      , data := [ ("title", r.get "title"), ("url", r.get "url")
                , ("content", r.get "content")
                , ("score", r.get "score") ] }) := by
  have hfe := fetch_content_success_eq c body
  have hte := tavily_search_success_eq api_key query sd tp mr ii ia body
  rw [h] at hfe hte
  simp only [JVal.asList] at hfe hte
  exact ⟨⟨_, _, hfe⟩, ⟨_, _, hte⟩, fun r => rfl, fun r => rfl⟩

/-- C1 witness: the shape property instantiated at a concrete component
state and a concrete successful response with two results entries. -/
theorem C1_success_results_shape_witness :
    exBody.getD "results" (.list []) = .list exResults
  ∧ ((∃ pre post : List Data,
        (fetch_content exComponent (.success exBody)).2 =
          pre ++ exResults.map fetchResultRecord ++ post)
    ∧ (∃ pre post : List Data,
        (_tavily_search "k" "q" (.enum .basic) (.enum .general) 5 true true
            (.success exBody)).2 =
          .ok (pre ++ exResults.map toolResultRecord ++ post))
    ∧ (∀ r : JVal, fetchResultRecord r =
        { text := some (r.getD "content" (.str ""))
        , data := [ ("title", r.get "title"), ("url", r.get "url")
                  , ("content", r.getD "content" (.str ""))
                  , ("score", r.get "score") ] })
    ∧ (∀ r : JVal, toolResultRecord r =
        { text := Option.none
        , data := [ ("title", r.get "title"), ("url", r.get "url")
                  , ("content", r.get "content")
                  , ("score", r.get "score") ] })) :=
  ⟨rfl, C1_success_results_shape exComponent "k" "q" .basic .general 5
    true true exBody exResults rfl⟩

/-- C4 counterexample: run_model invoked with the invalid search_depth
string "profundo" does not raise; it returns normally with a one-element
list whose record carries the error message, refuting the part of the
claim that says run_model raises a typed error on an invalid enum
string. -/
theorem C4_run_model_counterexample :
    (run_model { api_key := "k", query := "q"
               , search_depth := .other "profundo"
               , topic := .enum .general, max_results := 5
               , include_images := false, include_answer := false }
        (.success (.dict []))).2 =
      .ok [{ text := Option.none
           , data := [("error", .str
               "Valor de profundidade de busca inválido: profundo is not a valid TavilySearchDepth")] }] :=
  rfl

/-- C4 (amended): when search_depth or topic is a string that names no
enum member, run_model catches the enum constructor's ValueError and
returns (without raising) a one-element list whose record's data carries
the error message; and _tavily_search raises a TypeError when its
search_depth or topic argument is not an instance of the corresponding
enum. -/
theorem C4_enum_validation_amended (st : TavilySearchToolComponent)
    (s s2 api_key query : String) (resp : HttpOutcome)
    (sd : TavilySearchDepth) (tpArg : PyEnumArg TavilySearchTopic)
    (mr : Int) (ii ia : Bool)
    (hs : depthOfString (asciiLower s) = Option.none)
    (hs2 : topicOfString (asciiLower s2) = Option.none)
    (hd : getDepthEnum st.search_depth = .ok sd) :
    ((run_model { st with search_depth := .other s } resp).2 =
      .ok [{ text := Option.none
           , data := [("error", .str ("Valor de profundidade de busca inválido: " ++
               enumValueErrorStr (asciiLower s) "TavilySearchDepth"))] }])
  ∧ ((run_model { st with topic := .other s2 } resp).2 =
      .ok [{ text := Option.none
           , data := [("error", .str ("Valor de tópico inválido: " ++
               enumValueErrorStr (asciiLower s2) "TavilySearchTopic"))] }])
  ∧ ((_tavily_search api_key query (.other s) tpArg mr ii ia resp).2 =
      .error (.typeError ("Profundidade de busca inválida: " ++ s)))
  ∧ ((_tavily_search api_key query (.enum sd) (.other s2) mr ii ia resp).2 =
      .error (.typeError ("Tópico de busca inválido: " ++ s2))) := by
  refine ⟨?_, ?_, ?_, rfl⟩
  · simp [run_model, getDepthEnum, hs]
  · simp [run_model, hd, getTopicEnum, hs2]
  · rfl

/-- C4 witness: the amended enum-validation property instantiated at a
concrete tool state and the invalid strings "profundo" and "assuntos". -/
theorem C4_enum_validation_amended_witness :
    depthOfString (asciiLower "profundo") = Option.none
  ∧ topicOfString (asciiLower "assuntos") = Option.none
  ∧ getDepthEnum exTool.search_depth = .ok .advanced
  ∧ (((run_model { exTool with search_depth := .other "profundo" }
          (.success (.dict []))).2 =
        .ok [{ text := Option.none
             , data := [("error", .str ("Valor de profundidade de busca inválido: " ++
                 enumValueErrorStr (asciiLower "profundo") "TavilySearchDepth"))] }])
    ∧ ((run_model { exTool with topic := .other "assuntos" }
          (.success (.dict []))).2 =
        .ok [{ text := Option.none
             , data := [("error", .str ("Valor de tópico inválido: " ++
                 enumValueErrorStr (asciiLower "assuntos") "TavilySearchTopic"))] }])
    ∧ ((_tavily_search "k" "q" (.other "profundo") (.enum .general) 5 false false
          (.success (.dict []))).2 =
        .error (.typeError ("Profundidade de busca inválida: " ++ "profundo")))
    ∧ ((_tavily_search "k" "q" (.enum .advanced) (.other "assuntos") 5 false false
          (.success (.dict []))).2 =
        .error (.typeError ("Tópico de busca inválido: " ++ "assuntos")))) :=
  ⟨rfl, rfl, rfl,
    C4_enum_validation_amended exTool "profundo" "assuntos" "k" "q"
      (.success (.dict [])) .advanced (.enum .general) 5 false false
      rfl rfl rfl⟩

/-- The row loop of parse_data is List.mapM of the row formatter over the
rows. -/
theorem buildLines_eq_mapM (t : String) (rows : List Row) :
    buildLines t rows = rows.mapM (pyFormat t) := by
  induction rows with
  | nil => rfl
  | cons r rs ih => rw [List.mapM_cons, ← ih]; rfl

/-- C5: for every DataFrame input, parse_data produces a single text
message whose text equals the concatenation, in DataFrame row order, of
the template formatted with each row's column-name-to-value dictionary,
joined by the separator sep. -/
theorem C5_parse_data_text (c : ParseDataFrameComponent)
    (lines : List String)
    (h : c.df.rows.mapM (pyFormat (strOr c.template "{text}")) =
      Except.ok lines) :
    parse_data c =
      .ok { text := String.intercalate (strOr c.sep "\n") lines } := by
  have hb : buildLines (strOr c.template "{text}") (DataFrame.iterrows c.df) =
      Except.ok lines := by
    rw [buildLines_eq_mapM]; exact h
  simp only [parse_data, _clean_args, DataFrame.iterrows] at *
  rw [hb]
  rfl

/-- C5 witness: parse_data at a concrete two-row DataFrame with default
template and separator. -/
theorem C5_parse_data_text_witness :
    exParse.df.rows.mapM (pyFormat (strOr exParse.template "{text}")) =
      Except.ok ["a", "b"]
  ∧ parse_data exParse =
      .ok { text := String.intercalate (strOr exParse.sep "\n") ["a", "b"] } :=
  ⟨rfl, C5_parse_data_text exParse ["a", "b"] rfl⟩

/-- C9: parse_data treats a None or empty template as "{text}" and a None
or empty separator as a newline: on such inputs it equals parse_data with
those defaults substituted. -/
theorem C9_default_args (c : ParseDataFrameComponent) :
    ((c.template = Option.none ∨ c.template = some "") →
        parse_data c = parse_data { c with template := some "{text}" })
  ∧ ((c.sep = Option.none ∨ c.sep = some "") →
        parse_data c = parse_data { c with sep := some "\n" }) := by
  constructor
  · rintro (h | h) <;> simp [parse_data, _clean_args, strOr, h]
  · rintro (h | h) <;> simp [parse_data, _clean_args, strOr, h]

/-- C9 witness: the default substitution at a concrete state with unset
template and separator. -/
theorem C9_default_args_witness :
    (parse_data exParse = parse_data { exParse with template := some "{text}" })
  ∧ (parse_data exParse = parse_data { exParse with sep := some "\n" }) :=
  ⟨(C9_default_args exParse).1 (Or.inl rfl),
   (C9_default_args exParse).2 (Or.inl rfl)⟩

/-- C8: for every successful Tavily API response, if the answer flag is
set and the response contains a truthy answer, the answer record is the
first element of the returned list; if the images flag is set and the
response contains a truthy images list, the images record is the last
element; and the returned list's length equals the number of results
entries plus one for each of these two extras that is included — for both
fetch_content and _tavily_search. -/
theorem C8_extras_order_length (c : TavilySearchComponent)
    (api_key query : String) (sd : TavilySearchDepth)
    (tp : TavilySearchTopic) (mr : Int) (ii ia : Bool)
    (body : JVal) (rs : List JVal)
    (h : body.getD "results" (.list []) = .list rs) :
    ((c.include_answer && (body.get "answer").truthy) = true →
        ((fetch_content c (.success body)).2).head? =
          some (fetchAnswerRecord body))
  ∧ ((c.include_images && (body.get "images").truthy) = true →
        ((fetch_content c (.success body)).2).getLast? =
          some (fetchImagesRecord body))
  ∧ ((fetch_content c (.success body)).2).length =
      rs.length
      + (if c.include_answer && (body.get "answer").truthy then 1 else 0)
      + (if c.include_images && (body.get "images").truthy then 1 else 0)
  ∧ (∃ out : List Data,
      (_tavily_search api_key query (.enum sd) (.enum tp) mr ii ia
          (.success body)).2 = .ok out
      ∧ ((ia && (body.get "answer").truthy) = true →
          out.head? = some (toolAnswerRecord body))
      ∧ ((ii && (body.get "images").truthy) = true →
          out.getLast? = some (toolImagesRecord body))
      ∧ out.length = rs.length
          + (if ia && (body.get "answer").truthy then 1 else 0)
          + (if ii && (body.get "images").truthy then 1 else 0)) := by
  have hfe := fetch_content_success_eq c body
  have hte := tavily_search_success_eq api_key query sd tp mr ii ia body
  rw [h] at hfe hte
  simp only [JVal.asList] at hfe hte
  refine ⟨?_, ?_, ?_, ⟨_, hte, ?_, ?_, ?_⟩⟩
  · intro hA; rw [hfe, hA]; simp
  · intro hI; rw [hfe, hI]; simp [List.getLast?_concat]
  · rw [hfe]
    cases hA : c.include_answer && (body.get "answer").truthy <;>
      cases hI : c.include_images && (body.get "images").truthy <;>
      simp [hA, hI]
  · intro hA; rw [hA]; simp
  · intro hI; rw [hI]; simp [List.getLast?_concat]
  · cases hA : ia && (body.get "answer").truthy <;>
      cases hI : ii && (body.get "images").truthy <;>
      simp [hA, hI]

/-- C8 witness: the order and length property instantiated at a concrete
state with both flags set and a concrete response holding a truthy answer,
two results entries and a truthy images list. -/
theorem C8_extras_order_length_witness :
    exBody.getD "results" (.list []) = .list exResults
  ∧ (((exComponent.include_answer && (exBody.get "answer").truthy) = true →
        ((fetch_content exComponent (.success exBody)).2).head? =
          some (fetchAnswerRecord exBody))
    ∧ ((exComponent.include_images && (exBody.get "images").truthy) = true →
        ((fetch_content exComponent (.success exBody)).2).getLast? =
          some (fetchImagesRecord exBody))
    ∧ ((fetch_content exComponent (.success exBody)).2).length =
        exResults.length
        + (if exComponent.include_answer && (exBody.get "answer").truthy then 1 else 0)
        + (if exComponent.include_images && (exBody.get "images").truthy then 1 else 0)
    ∧ (∃ out : List Data,
        (_tavily_search "k" "q" (.enum .basic) (.enum .general) 5 true true
            (.success exBody)).2 = .ok out
        ∧ ((true && (exBody.get "answer").truthy) = true →
            out.head? = some (toolAnswerRecord exBody))
        ∧ ((true && (exBody.get "images").truthy) = true →
            out.getLast? = some (toolImagesRecord exBody))
        ∧ out.length = exResults.length
            + (if true && (exBody.get "answer").truthy then 1 else 0)
            + (if true && (exBody.get "images").truthy then 1 else 0))) :=
  ⟨rfl, C8_extras_order_length exComponent "k" "q" .basic .general 5
    true true exBody exResults rfl⟩

end Langflow
